import Mathlib

/-!
Shallow embedding of the Local Language-Model Adapter of MyFace SnapJournal
(`src-tauri/src/ai_service.rs`), together with theorems settling the
specification claims about it.

Modelling conventions:
* machine integers are `Nat` reduced modulo `2 ^ 64` where the source wraps;
* `f32`/`f64` arithmetic is modelled by exact rational arithmetic (the
  properties settled here depend only on ranges and equalities that the exact
  model shares with the floating-point code);
* results of child-process spawns and of the internal chat call are passed in
  as explicit oracle arguments (`Option ProcOutput`, `Except String
  ChatResponse`), mirroring the nondeterminism of the environment;
* Rust string functions (`lines`, `split`, `splitn`, `trim`,
  `split_whitespace`, `parse::<f64>`) are re-implemented over `List Char`
  with structural recursion so that they reduce inside the kernel.
-/

attribute [local semireducible] Rat.mul Rat.inv Rat.add Rat.sub Rat.ofScientific

set_option maxRecDepth 16384

/-- Unicode `White_Space` characters, as used by Rust `char::is_whitespace`. -/
def rustWhitespace (c : Char) : Bool :=
  [' ', '\t', '\n', '\x0b', '\x0c', '\r', '\u0085', ' ', ' ',
   ' ', ' ', ' ', ' ', ' ', ' ', ' ',
   ' ', ' ', ' ', ' ', ' ', ' ', ' ',
   ' ', '　'].contains c

/-- Worker for `splitOnC`: fuel-indexed so that it reduces definitionally;
`acc` holds the current fragment reversed.  The fuel is at least the length
of the remaining input, so the `0` case is never reached. -/
def splitOnAuxC (sep : List Char) : Nat → List Char → List Char → List (List Char)
  | _, [], acc => [acc.reverse]
  | 0, rest, acc => [acc.reverse ++ rest]
  | fuel + 1, c :: cs, acc =>
    if sep.isPrefixOf (c :: cs) then
      acc.reverse :: splitOnAuxC sep fuel (List.drop sep.length (c :: cs)) []
    else
      splitOnAuxC sep fuel cs (c :: acc)

/-- Rust `str::split` on a literal separator (restricted to non-empty
separators, the only use in the source). -/
def splitOnC (sep : List Char) (s : List Char) : List (List Char) :=
  if sep.isEmpty then [s] else splitOnAuxC sep s.length s []

/-- Strip one trailing carriage return, as Rust `str::lines` does. -/
def dropTrailingCR (l : List Char) : List Char :=
  if l.getLast? = some '\r' then l.dropLast else l

/-- Rust `str::lines`: split on a line feed, drop the final empty piece
produced by a trailing line feed, and strip one trailing carriage return
from each line. -/
def rustLinesC (s : List Char) : List (List Char) :=
  if s.isEmpty then []
  else
    let parts := splitOnC ['\n'] s
    let parts := if s.getLast? = some '\n' then parts.dropLast else parts
    parts.map dropTrailingCR

/-- Rust `str::trim`. -/
def rustTrimC (l : List Char) : List Char :=
  ((l.dropWhile rustWhitespace).reverse.dropWhile rustWhitespace).reverse

/-- Worker for `splitWhitespaceC`; `acc` holds the current token reversed. -/
def splitWsAux : List Char → List Char → List (List Char)
  | [], acc => if acc.isEmpty then [] else [acc.reverse]
  | c :: cs, acc =>
    if rustWhitespace c then
      if acc.isEmpty then splitWsAux cs [] else acc.reverse :: splitWsAux cs []
    else
      splitWsAux cs (c :: acc)

/-- Rust `str::split_whitespace`. -/
def splitWhitespaceC (l : List Char) : List (List Char) := splitWsAux l []

/-- Rust `str::splitn(2, ':')`: at most two pieces, split at the first colon. -/
def splitn2Colon (l : List Char) : List (List Char) :=
  match splitOnC [':'] l with
  | [] => [l]
  | [a] => [a]
  | a :: rest => [a, List.intercalate [':'] rest]

/-- Value of a string of decimal digits. -/
def digitsVal (l : List Char) : Nat :=
  l.foldl (fun n c => 10 * n + (c.toNat - '0'.toNat)) 0

/-- Rust `str::parse::<f64>()`, modelled over `ℚ`: optional sign, decimal
digits with an optional fractional part and an optional decimal exponent,
the whole string consumed.  (`inf`/`NaN` spellings, which Rust also accepts,
have no rational counterpart and are rejected here; the rational returned is
the exact decimal value, `f64` rounding is not modelled.) -/
def parseRatC (l : List Char) : Option ℚ :=
  let sl : ℚ × List Char :=
    match l with
    | '+' :: r => (1, r)
    | '-' :: r => (-1, r)
    | r => (1, r)
  let sgn := sl.1
  let ip := sl.2.takeWhile Char.isDigit
  let l2 := sl.2.dropWhile Char.isDigit
  let fl : List Char × List Char :=
    match l2 with
    | '.' :: r => (r.takeWhile Char.isDigit, r.dropWhile Char.isDigit)
    | r => ([], r)
  let fp := fl.1
  let l3 := fl.2
  if ip.isEmpty && fp.isEmpty then none
  else
    let mant : ℚ := sgn * ((digitsVal ip : ℚ) + (digitsVal fp : ℚ) / (10 : ℚ) ^ fp.length)
    match l3 with
    | [] => some mant
    | e :: r =>
      if e == 'e' || e == 'E' then
        let er : ℤ × List Char :=
          match r with
          | '+' :: t => (1, t)
          | '-' :: t => (-1, t)
          | t => (1, t)
        let ed := er.2.takeWhile Char.isDigit
        let r2 := er.2.dropWhile Char.isDigit
        if ed.isEmpty || !r2.isEmpty then none
        else some (mant * (10 : ℚ) ^ (er.1 * (digitsVal ed : ℤ)))
      else none

/-- The modulus of 64-bit wrapping arithmetic. -/
def M64 : Nat := 2 ^ 64

/-- 64-bit wrapping addition. -/
def wadd (a b : Nat) : Nat := (a + b) % M64

/-- 64-bit rotate left (arguments below `2 ^ 64`). -/
def rotl64 (a k : Nat) : Nat := ((a <<< k) % M64) ||| (a >>> (64 - k))

/-- The four 64-bit words of the SipHash state. -/
structure SipState where
  v0 : Nat
  v1 : Nat
  v2 : Nat
  v3 : Nat

/-- One SipHash round. -/
def sipRound (s : SipState) : SipState :=
  let v0 := wadd s.v0 s.v1
  let v1 := rotl64 s.v1 13
  let v1 := Nat.xor v1 v0
  let v0 := rotl64 v0 32
  let v2 := wadd s.v2 s.v3
  let v3 := rotl64 s.v3 16
  let v3 := Nat.xor v3 v2
  let v0 := wadd v0 v3
  let v3 := rotl64 v3 21
  let v3 := Nat.xor v3 v0
  let v2 := wadd v2 v1
  let v1 := rotl64 v1 17
  let v1 := Nat.xor v1 v2
  let v2 := rotl64 v2 32
  ⟨v0, v1, v2, v3⟩

/-- Compression of one message word (`c = 1` round, as in SipHash-1-3). -/
def sipCompress (s : SipState) (m : Nat) : SipState :=
  let s1 := sipRound { s with v3 := Nat.xor s.v3 m }
  { s1 with v0 := Nat.xor s1.v0 m }

/-- Little-endian value of a byte list. -/
def leVal : List Nat → Nat
  | [] => 0
  | b :: bs => b + 256 * leVal bs

/-- Compress all full 8-byte blocks; returns the final state and the tail. -/
def sipBlocks (s : SipState) : List Nat → SipState × List Nat
  | b0 :: b1 :: b2 :: b3 :: b4 :: b5 :: b6 :: b7 :: rest =>
    sipBlocks (sipCompress s (leVal [b0, b1, b2, b3, b4, b5, b6, b7])) rest
  | tail => (s, tail)

/-- SipHash-1-3 with zero keys over a byte stream: the hasher behind Rust
`DefaultHasher` (`d = 3` finalization rounds). -/
def siphash13 (bytes : List Nat) : Nat :=
  let s0 : SipState :=
    ⟨0x736f6d6570736575, 0x646f72616e646f6d, 0x6c7967656e657261, 0x7465646279746573⟩
  let st := sipBlocks s0 bytes
  let b := Nat.lor (((bytes.length % 256) <<< 56) % M64) (leVal st.2)
  let s2 := sipCompress st.1 b
  let s3 := sipRound (sipRound (sipRound { s2 with v2 := Nat.xor s2.v2 0xff }))
  Nat.xor (Nat.xor s3.v0 s3.v1) (Nat.xor s3.v2 s3.v3)

/-- UTF-8 encoding of one scalar value. -/
def utf8Bytes (c : Char) : List Nat :=
  let n := c.toNat
  if n < 0x80 then [n]
  else if n < 0x800 then [0xc0 ||| (n >>> 6), 0x80 ||| (n &&& 0x3f)]
  else if n < 0x10000 then
    [0xe0 ||| (n >>> 12), 0x80 ||| ((n >>> 6) &&& 0x3f), 0x80 ||| (n &&& 0x3f)]
  else
    [0xf0 ||| (n >>> 18), 0x80 ||| ((n >>> 12) &&& 0x3f),
     0x80 ||| ((n >>> 6) &&& 0x3f), 0x80 ||| (n &&& 0x3f)]

/-- Rust `DefaultHasher::new()` fed a `&str` (`Hash for str` appends a
`0xff` terminator byte to the UTF-8 bytes), then `finish()`. -/
def defaultHash (s : String) : Nat :=
  siphash13 ((s.data.map utf8Bytes).flatten ++ [0xff])

/-- Rust `AIService::mock_embedding` (the deterministic stand-in vectorizer):
a 384-component pseudo-embedding derived from the `DefaultHasher` hash of
the text.  The `f32` expression `(seed as f32 / u64::MAX as f32) * 2.0 - 1.0`
is modelled exactly over `ℚ` (the unused `&self` receiver is dropped). -/
def mock_embedding (text : String) : List ℚ :=
  (List.range 384).map fun i =>
    let seed := (defaultHash text + i) % M64
    (seed : ℚ) / ((2 : ℚ) ^ 64 - 1) * 2 - 1

/-- Record `EmbeddingRequest`. -/
structure EmbeddingRequest where
  text : String
  model : Option String

/-- Record `EmbeddingResponse`. -/
structure EmbeddingResponse where
  embedding : List ℚ
  model : String
deriving DecidableEq

/-- Record `ChatRequest`. -/
structure ChatRequest where
  message : String
  context : Option String
  model : Option String

/-- Record `ChatResponse`. -/
structure ChatResponse where
  response : String
  model : String
  tokens_used : Option Nat

/-- Record `EchoPattern` (a theme pattern of the analyzer). -/
structure EchoPattern where
  id : String
  title : String
  description : String
  strength : ℚ
  entry_ids : List String
  tags : List String
  pattern_type : String
deriving DecidableEq

/-- Record `EchoAnalysis` (the theme report).  The `HashMap<String, f64>` of mood
trends is modelled as an association list with insert-or-replace semantics
(`insertMood`); the list order records insertion order, which the Rust hash
map does not expose, but the map it represents is the same. -/
structure EchoAnalysis where
  patterns : List EchoPattern
  insights : List String
  mood_trends : List (String × ℚ)
deriving DecidableEq

/-- Variant `AIModel`: the backend selector. -/
inductive AIModel where
  | ollama : AIModel
  | llamaCpp : String → AIModel
deriving DecidableEq

/-- Record `AIService`: the adapter facade. -/
structure AIService where
  model : AIModel
  embedding_model : String
  chat_model : String
  ollama_url : String

/-- Result of a finished child process (`std::process::Output`): exit-status
success flag and decoded stdout/stderr. -/
structure ProcOutput where
  success : Bool
  stdout : String
  stderr : String

/-- Constructor `AIService::new`.  The `OLLAMA_URL` environment variable is passed in
explicitly as `envOllamaUrl` (`std::env::var` result). -/
def AIService.new (model_type model_path : String) (envOllamaUrl : Option String) :
    Except String AIService :=
  if model_type = "ollama" then
    .ok { model := .ollama, embedding_model := "nomic-embed-text",
          chat_model := "llama3.2",
          ollama_url := envOllamaUrl.getD "http://localhost:11434" }
  else if model_type = "llama.cpp" then
    .ok { model := .llamaCpp model_path, embedding_model := "nomic-embed-text",
          chat_model := "llama3.2",
          ollama_url := envOllamaUrl.getD "http://localhost:11434" }
  else
    .error ("Unsupported AI model type: " ++ model_type)

/-- The system prompt composed inside `generate_ollama_chat`: with a context
it interpolates the context between the fixed halves of the `format!` string;
without one it is the shorter fixed sentence. -/
def system_prompt : Option String → String
  | some context =>
    "You are a helpful AI introspection companion for MyFace SnapJournal. You help users reflect on their journal entries and social media posts. Use the following context about the user's entries:\n\n"
    ++ context
    ++ "\n\n Be empathetic, insightful, and encouraging. Help them discover patterns and insights in their writing."
  | none =>
    "You are a helpful AI introspection companion for MyFace SnapJournal. You help users reflect on their journal entries and social media posts. Be empathetic, insightful, and encouraging."

/-- One chat message of the `/api/chat` body. -/
structure Message where
  role : String
  content : String
deriving DecidableEq

/-- The two messages `generate_ollama_chat` posts to `/api/chat`. -/
def ollamaChatMessages (req : ChatRequest) : List Message :=
  [{ role := "system", content := system_prompt req.context },
   { role := "user", content := req.message }]

/-- The JSON body posted by `generate_ollama_chat` (`stream: false`). -/
structure ChatRequestBody where
  model : String
  messages : List Message
  stream : Bool

/-- The body `generate_ollama_chat` serializes, with the model defaulted to
the adapter's configured chat model. -/
def ollamaChatBody (svc : AIService) (req : ChatRequest) : ChatRequestBody :=
  { model := req.model.getD svc.chat_model
    messages := ollamaChatMessages req
    stream := false }

/-- Rust `generate_ollama_embedding`; `out` is the oracle result of the spawned
`ollama run` command (`none` models a spawn failure, which `.context(...)`
turns into an error).  On success the stdout is read but discarded and the
stand-in vector of the request text is returned. -/
def generate_ollama_embedding (svc : AIService) (req : EmbeddingRequest)
    (out : Option ProcOutput) : Except String EmbeddingResponse :=
  let model := req.model.getD svc.embedding_model
  match out with
  | none => .error "Failed to run Ollama embedding command"
  | some o =>
    if o.success then .ok { embedding := mock_embedding req.text, model := model }
    else .error ("Ollama embedding failed: " ++ o.stderr)

/-- Rust `generate_embedding`: dispatch on the backend; the process (`llama.cpp`)
backend returns the stand-in vector directly under the fixed model label. -/
def generate_embedding (svc : AIService) (req : EmbeddingRequest)
    (out : Option ProcOutput) : Except String EmbeddingResponse :=
  match svc.model with
  | .ollama => generate_ollama_embedding svc req out
  | .llamaCpp _ => .ok { embedding := mock_embedding req.text, model := "mock-embedding" }

/-- Characters of a string. -/
def strChars (s : String) : List Char := s.data

/-- String from characters. -/
def charsStr (l : List Char) : String := ⟨l⟩

/-- The `PATTERNS:` section of the analyzer reply parsed to (title,
description) pairs: text between the first `PATTERNS:` and the next
`INSIGHTS:`, lines that start with `"- "` and contain a colon, split once at
the first colon, both halves trimmed. -/
def patternPairs (analysis_text : String) : List (String × String) :=
  match (splitOnC (strChars "PATTERNS:") (strChars analysis_text)).get? 1 with
  | none => []
  | some psec =>
    let sec := (splitOnC (strChars "INSIGHTS:") psec).headD []
    (rustLinesC sec).filterMap fun line =>
      if line.contains ':' && ['-', ' '].isPrefixOf line then
        match splitn2Colon (line.drop 2) with
        | [a, b] => some (charsStr (rustTrimC a), charsStr (rustTrimC b))
        | _ => none
      else none

/-- The `INSIGHTS:` section parsed to insight strings: text between the
first `INSIGHTS:` and the next `MOODS:`, lines that start with `"- "`,
trimmed after dropping the dash. -/
def insightLines (analysis_text : String) : List String :=
  match (splitOnC (strChars "INSIGHTS:") (strChars analysis_text)).get? 1 with
  | none => []
  | some isec =>
    let sec := (splitOnC (strChars "MOODS:") isec).headD []
    (rustLinesC sec).filterMap fun line =>
      if ['-', ' '].isPrefixOf line then some (charsStr (rustTrimC (line.drop 2)))
      else none

/-- The `MOODS:` section parsed to (label, raw numeric value) pairs — the
value before the division by 100: lines after the first `MOODS:` that start
with `"- "` and contain a colon, split once at the first colon, the value
half trimmed, stripped of every percent sign and parsed as a float. -/
def rawMoods (analysis_text : String) : List (String × ℚ) :=
  match (splitOnC (strChars "MOODS:") (strChars analysis_text)).get? 1 with
  | none => []
  | some msec =>
    (rustLinesC msec).filterMap fun line =>
      if ['-', ' '].isPrefixOf line && line.contains ':' then
        match splitn2Colon (line.drop 2) with
        | [k, v] =>
          match parseRatC ((rustTrimC v).filter (· != '%')) with
          | some value => some (charsStr (rustTrimC k), value)
          | none => none
        | _ => none
      else none

/-- Rust `HashMap::insert` on the association-list model of the mood map:
replace the value when the key is present, append otherwise. -/
def insertMood (m : List (String × ℚ)) (k : String) (v : ℚ) : List (String × ℚ) :=
  if m.any (fun p => p.1 == k) then
    m.map fun p => if p.1 == k then (k, v) else p
  else m ++ [(k, v)]

/-- Rust `entry_contents.join("\n\n---\n\n")`. -/
def combinedEntries (entry_contents : List String) : String :=
  String.intercalate "\n\n---\n\n" entry_contents

/-- The analysis prompt `analyze_echo_patterns` builds around the combined
entries. -/
def analysisPrompt (entry_contents : List String) : String :=
  "Analyze the following journal entries and identify patterns, themes, and insights. Look for recurring topics, emotions, daily rhythms, and personal growth patterns.\n\nJournal Entries:\n"
  ++ combinedEntries entry_contents
  ++ "\n\nProvide your analysis in this format:\nPATTERNS:\n- [pattern name]: [description]\nINSIGHTS:\n- [insight]\nMOODS:\n- [mood]: [percentage]"

/-- The `ChatRequest` that `analyze_echo_patterns` sends (no context, the
adapter's configured chat model). -/
def analysisRequest (svc : AIService) (entry_contents : List String) : ChatRequest :=
  { message := analysisPrompt entry_contents, context := none,
    model := some svc.chat_model }

/-- Rust `analyze_echo_patterns`.  `genId` supplies the `uuid::Uuid::new_v4()`
results (index within the parsed pattern list; the synthetic fallback
pattern draws index 0 of the then-empty list); `chatResult` is the oracle
outcome of the internal `generate_chat` call, consulted only when
`entry_contents` is non-empty. -/
def analyze_echo_patterns (svc : AIService) (genId : Nat → String)
    (chatResult : Except String ChatResponse) (entry_contents : List String) :
    EchoAnalysis :=
  if entry_contents.isEmpty then
    { patterns := [], insights := [], mood_trends := [] }
  else
    match chatResult with
    | .ok response =>
      let analysis_text := response.response
      let patterns : List EchoPattern := (patternPairs analysis_text).enum.map fun p =>
        { id := genId p.1, title := p.2.1, description := p.2.2,
          strength := 0.8, entry_ids := [], tags := [],
          pattern_type := "custom" }
      let insights := insightLines analysis_text
      let mood_trends := (rawMoods analysis_text).foldl
        (fun m kv => insertMood m kv.1 (kv.2 / 100)) []
      let patterns : List EchoPattern :=
        if patterns.isEmpty && decide (3 < entry_contents.length) then
          [{ id := genId 0, title := "Regular Journaling",
             description := "You maintain a consistent journaling habit",
             strength := 0.7, entry_ids := [], tags := ["consistency"],
             pattern_type := "habit" }]
        else patterns
      { patterns := patterns, insights := insights, mood_trends := mood_trends }
    | .error _ =>
      { patterns := [], insights := [],
        mood_trends := insertMood (insertMood (insertMood [] "neutral" 0.5)
          "positive" 0.3) "negative" 0.2 }

/-- Rust `list_models`; `out` is the oracle result of the `ollama list` command
on the HTTP backend (`none` models a spawn failure, surfaced as an error). -/
def list_models (svc : AIService) (out : Option ProcOutput) :
    Except String (List String) :=
  match svc.model with
  | .ollama =>
    match out with
    | none => .error "Failed to list Ollama models"
    | some o =>
      if !o.success then .ok []
      else
        .ok (((rustLinesC (strChars o.stdout)).drop 1).filterMap
          fun line => ((splitWhitespaceC line).head?).map charsStr)
  | .llamaCpp _ => .ok ["llama2:7b", "codellama:7b"]

/-- Modelled from the spec sentence for the model catalog: split stdout into
lines, skip the first (header) line, and emit the first whitespace-delimited
token of each remaining line that has one. -/
def specModelParse (stdout : String) : List String :=
  (((rustLinesC (strChars stdout)).drop 1).filter
      fun line => !(splitWhitespaceC line).isEmpty).map
    fun line => charsStr ((splitWhitespaceC line).headD [])

/-- Sanity check of the parser against the spec's end-to-end theme-analysis
scenario: a reply with all three labelled sections produces the pattern with
default strength 0.8 and type "custom", the insight line, and percentage
mood values divided by 100 (a trailing percent sign is stripped). -/
theorem analyze_scenario_sections :
    analyze_echo_patterns ⟨.ollama, "nomic-embed-text", "llama3.2", "url"⟩
      (fun _ => "id")
      (.ok ⟨"PATTERNS:\n- Gratitude: you thank people often\nINSIGHTS:\n- You write more\nMOODS:\n- positive: 70\n- neutral: 20%", "llama3.2", none⟩)
      ["a", "b", "c", "d", "e"]
      = { patterns := [{ id := "id", title := "Gratitude",
                         description := "you thank people often", strength := 0.8,
                         entry_ids := [], tags := [], pattern_type := "custom" }],
          insights := ["You write more"],
          mood_trends := [("positive", 0.7), ("neutral", 0.2)] } := by decide

/-- The adapter as `main.rs` constructs it: `AIService::new("ollama", "")`
with no `OLLAMA_URL` override.  Used as the concrete service of witnesses. -/
def svcOllama : AIService :=
  { model := .ollama, embedding_model := "nomic-embed-text",
    chat_model := "llama3.2", ollama_url := "http://localhost:11434" }

/-- Claim C2, counterexample: construction rejects the tags "http-runner"
and "process-binary" with the unsupported-model-type error — they are not
the accepted backend kind tags of the code. -/
theorem new_rejects_spec_tags_cex :
    AIService.new "http-runner" "/x" none
      = .error "Unsupported AI model type: http-runner" ∧
    AIService.new "process-binary" "/x" none
      = .error "Unsupported AI model type: process-binary" := by
  constructor <;> rfl

/-- Claim C2, amended: adapter construction accepts exactly the backend kind
tags "ollama" (selecting the HTTP driver) and "llama.cpp" (selecting the
process driver), and fails with the configuration error for every other
tag. -/
theorem new_backend_tags (p : String) (env : Option String) :
    (∃ s, AIService.new "ollama" p env = .ok s ∧ s.model = .ollama) ∧
    (∃ s, AIService.new "llama.cpp" p env = .ok s ∧ s.model = .llamaCpp p) ∧
    ∀ t, t ≠ "ollama" → t ≠ "llama.cpp" →
      AIService.new t p env = .error ("Unsupported AI model type: " ++ t) := by
  refine ⟨⟨_, rfl, rfl⟩, ⟨_, rfl, rfl⟩, ?_⟩
  intro t h1 h2
  unfold AIService.new
  rw [if_neg h1, if_neg h2]

/-- Witness for `new_backend_tags` at the concrete tag "mistral". -/
theorem new_backend_tags_witness :
    AIService.new "mistral" "/x" none
      = .error ("Unsupported AI model type: " ++ "mistral") :=
  (new_backend_tags "/x" none).2.2 "mistral" (by decide) (by decide)

/-- Claim C3: on the HTTP (ollama) backend, whenever the spawned child exits
successfully the embed call returns exactly the stand-in vector of the
request text — ignoring the child's stdout/stderr entirely — and that vector
is the one the process (`llama.cpp`) backend returns for the same text; only
the model field (requested model or default embedding model) differs from
the process backend's fixed "mock-embedding" label. -/
theorem ollama_embedding_standin (svc : AIService) (req : EmbeddingRequest)
    (o : ProcOutput) (h : o.success = true) :
    generate_ollama_embedding svc req (some o)
      = .ok { embedding := mock_embedding req.text,
              model := req.model.getD svc.embedding_model } ∧
    (∀ o' : ProcOutput, o'.success = true →
      generate_ollama_embedding svc req (some o')
        = generate_ollama_embedding svc req (some o)) ∧
    ∀ (path emb chat url : String) (m : Option String) (out : Option ProcOutput),
      generate_embedding ⟨.llamaCpp path, emb, chat, url⟩ ⟨req.text, m⟩ out
        = .ok { embedding := mock_embedding req.text, model := "mock-embedding" } := by
  refine ⟨?_, ?_, ?_⟩
  · simp [generate_ollama_embedding, h]
  · intro o' h'
    simp [generate_ollama_embedding, h, h']
  · intro path emb chat url m out
    rfl

/-- Witness for `ollama_embedding_standin` at a concrete request. -/
theorem ollama_embedding_standin_witness :
    generate_ollama_embedding svcOllama ⟨"hello", none⟩
        (some ⟨true, "ignored stdout", ""⟩)
      = .ok { embedding := mock_embedding "hello", model := "nomic-embed-text" } :=
  (ollama_embedding_standin svcOllama ⟨"hello", none⟩ ⟨true, "ignored stdout", ""⟩ rfl).1

/-- Claim C4: the stand-in vectorizer returns a vector of length exactly 384
in which every component lies in [-1, 1]. -/
theorem mock_embedding_length_range (s : String) :
    (mock_embedding s).length = 384 ∧
    ∀ q ∈ mock_embedding s, -1 ≤ q ∧ q ≤ 1 := by
  constructor
  · simp [mock_embedding]
  · intro q hq
    simp only [mock_embedding, List.mem_map, List.mem_range] at hq
    obtain ⟨i, -, rfl⟩ := hq
    have hpos : 0 < M64 := by norm_num [M64]
    have hm : (defaultHash s + i) % M64 ≤ M64 - 1 :=
      Nat.le_pred_of_lt (Nat.mod_lt _ hpos)
    have h1 : (((defaultHash s + i) % M64 : ℕ) : ℚ) ≤ (2 : ℚ) ^ 64 - 1 := by
      have hcast : (((defaultHash s + i) % M64 : ℕ) : ℚ) ≤ ((M64 - 1 : ℕ) : ℚ) := by
        exact_mod_cast hm
      refine hcast.trans ?_
      norm_num [M64]
    have h0 : (0 : ℚ) ≤ (((defaultHash s + i) % M64 : ℕ) : ℚ) := by positivity
    have hd : (0 : ℚ) < (2 : ℚ) ^ 64 - 1 := by norm_num
    have hq0 : (0 : ℚ) ≤ (((defaultHash s + i) % M64 : ℕ) : ℚ) / ((2 : ℚ) ^ 64 - 1) :=
      div_nonneg h0 hd.le
    have hq1 : (((defaultHash s + i) % M64 : ℕ) : ℚ) / ((2 : ℚ) ^ 64 - 1) ≤ 1 :=
      (div_le_one hd).mpr h1
    constructor <;> linarith

/-- Claim C5: the stand-in vectorizer is a pure deterministic function of its
input string.  The embedding reads no clock, randomness, or mutable state —
`DefaultHasher::new()` is keyed with fixed constants — so it is embedded as
a plain function and any two evaluations on equal strings agree. -/
theorem mock_embedding_deterministic (s t : String) (h : s = t) :
    mock_embedding s = mock_embedding t := by rw [h]

/-- Witness for `mock_embedding_deterministic` at a concrete string. -/
theorem mock_embedding_deterministic_witness :
    mock_embedding "hello" = mock_embedding "hello" :=
  mock_embedding_deterministic "hello" "hello" rfl

/-- Claim C6, counterexample: deleting only the context paragraph
("Use the following context about the user's entries:\n\n" ++ context ++
"\n\n ") from the with-context system message does not give the no-context
system message: the no-context message also drops the closing sentence
"Help them discover patterns and insights in their writing.". -/
theorem system_prompt_cex :
    system_prompt (some "CTX")
      = "You are a helpful AI introspection companion for MyFace SnapJournal. You help users reflect on their journal entries and social media posts. "
        ++ "Use the following context about the user's entries:\n\nCTX\n\n "
        ++ "Be empathetic, insightful, and encouraging. Help them discover patterns and insights in their writing." ∧
    system_prompt none
      ≠ "You are a helpful AI introspection companion for MyFace SnapJournal. You help users reflect on their journal entries and social media posts. "
        ++ "Be empathetic, insightful, and encouraging. Help them discover patterns and insights in their writing." := by
  constructor
  · rfl
  · decide

/-- Claim C6, amended: relative to the with-context system message, the
no-context system message omits the context paragraph AND the final sentence
" Help them discover patterns and insights in their writing."; the user
message is the request message verbatim. -/
theorem system_prompt_structure :
    (∀ c, system_prompt (some c)
      = "You are a helpful AI introspection companion for MyFace SnapJournal. You help users reflect on their journal entries and social media posts. Use the following context about the user's entries:\n\n"
        ++ c
        ++ "\n\n Be empathetic, insightful, and encouraging. Help them discover patterns and insights in their writing.") ∧
    (system_prompt none ++ " Help them discover patterns and insights in their writing."
      = "You are a helpful AI introspection companion for MyFace SnapJournal. You help users reflect on their journal entries and social media posts. "
        ++ "Be empathetic, insightful, and encouraging. Help them discover patterns and insights in their writing.") ∧
    ∀ req : ChatRequest, (ollamaChatMessages req).get? 1
      = some { role := "user", content := req.message } := by
  refine ⟨fun c => rfl, rfl, fun req => rfl⟩

/-- Claim C7: `analyze_echo_patterns` on the empty entry sequence returns
the empty report, for every possible outcome of the chat oracle — the
result does not depend on it, which is how the embedding expresses that no
network or child-process call is made. -/
theorem analyze_empty (svc : AIService) (genId : Nat → String)
    (chatResult : Except String ChatResponse) :
    analyze_echo_patterns svc genId chatResult []
      = { patterns := [], insights := [], mood_trends := [] } := rfl

/-- Claim C8: on non-empty input, when the internal chat call fails the
analyzer still returns (no error): empty patterns and insights and the
fixed mood map neutral 0.5, positive 0.3, negative 0.2. -/
theorem analyze_chat_failure (svc : AIService) (genId : Nat → String)
    (e : String) (entry_contents : List String) (h : entry_contents ≠ []) :
    analyze_echo_patterns svc genId (.error e) entry_contents
      = { patterns := [], insights := [],
          mood_trends := [("neutral", 0.5), ("positive", 0.3), ("negative", 0.2)] } := by
  cases entry_contents with
  | nil => exact absurd rfl h
  | cons a l => rfl

/-- Witness for `analyze_chat_failure` at a concrete failing run. -/
theorem analyze_chat_failure_witness :
    analyze_echo_patterns svcOllama (fun _ => "id") (.error "connection refused")
        ["entry one"]
      = { patterns := [], insights := [],
          mood_trends := [("neutral", 0.5), ("positive", 0.3), ("negative", 0.2)] } :=
  analyze_chat_failure svcOllama (fun _ => "id") "connection refused" ["entry one"]
    (by decide)

/-- Claim C9: when the chat call succeeds but the reply parses to zero
patterns, the synthetic "Regular Journaling" pattern (strength 0.7, type
"habit", single tag "consistency") is emitted iff the input had strictly
more than three entries; with exactly three entries the pattern list stays
empty. -/
theorem analyze_fallback_iff (svc : AIService) (genId : Nat → String)
    (response : ChatResponse) (entry_contents : List String)
    (hne : entry_contents ≠ [])
    (hzero : patternPairs response.response = []) :
    ((analyze_echo_patterns svc genId (.ok response) entry_contents).patterns
        = [{ id := genId 0, title := "Regular Journaling",
             description := "You maintain a consistent journaling habit",
             strength := 0.7, entry_ids := [], tags := ["consistency"],
             pattern_type := "habit" }]
      ↔ 3 < entry_contents.length) ∧
    (entry_contents.length = 3 →
      (analyze_echo_patterns svc genId (.ok response) entry_contents).patterns = []) := by
  cases entry_contents with
  | nil => exact absurd rfl hne
  | cons a l =>
    have key : (analyze_echo_patterns svc genId (.ok response) (a :: l)).patterns
        = if 3 < (a :: l).length then
            [{ id := genId 0, title := "Regular Journaling",
               description := "You maintain a consistent journaling habit",
               strength := 0.7, entry_ids := [], tags := ["consistency"],
               pattern_type := "habit" }]
          else [] := by
      simp [analyze_echo_patterns, hzero]
    rw [key]
    by_cases h3 : 3 < (a :: l).length
    · rw [if_pos h3]
      exact ⟨⟨fun _ => h3, fun _ => rfl⟩, fun hlen => absurd h3 (by omega)⟩
    · rw [if_neg h3]
      constructor
      · constructor
        · intro heq
          exact absurd heq (by simp)
        · intro h
          exact absurd h h3
      · intro hlen
        rfl

/-- Witness for `analyze_fallback_iff`: four entries and a reply without a
`PATTERNS:` section produce exactly the synthetic habit pattern. -/
theorem analyze_fallback_iff_witness :
    ((analyze_echo_patterns svcOllama (fun _ => "id")
        (.ok ⟨"no sections here", "llama3.2", none⟩) ["a", "b", "c", "d"]).patterns
      = [{ id := "id", title := "Regular Journaling",
           description := "You maintain a consistent journaling habit",
           strength := 0.7, entry_ids := [], tags := ["consistency"],
           pattern_type := "habit" }]
      ↔ 3 < (["a", "b", "c", "d"] : List String).length) ∧
    ((["a", "b", "c", "d"] : List String).length = 3 →
      (analyze_echo_patterns svcOllama (fun _ => "id")
        (.ok ⟨"no sections here", "llama3.2", none⟩) ["a", "b", "c", "d"]).patterns
        = []) :=
  analyze_fallback_iff svcOllama (fun _ => "id") ⟨"no sections here", "llama3.2", none⟩
    ["a", "b", "c", "d"] (by decide) (by decide)

/-- Rust `filter_map` of first-token extraction equals filtering to the lines
that have a token and mapping each to its first token. -/
theorem filterMap_firstToken (ls : List (List Char)) :
    ls.filterMap (fun line => ((splitWhitespaceC line).head?).map charsStr)
      = (ls.filter fun line => !(splitWhitespaceC line).isEmpty).map
          fun line => charsStr ((splitWhitespaceC line).headD []) := by
  induction ls with
  | nil => rfl
  | cons a t ih =>
    cases h : splitWhitespaceC a with
    | nil => simp [List.filterMap_cons, List.filter_cons, h, ih]
    | cons x xs => simp [List.filterMap_cons, List.filter_cons, h, ih]

/-- Claim C10: on the HTTP backend `list_models` parses stdout exactly as
the spec words it — split into lines, skip the single header line, take the
first whitespace-delimited token of each remaining line that has one, in
order — and a non-success exit status yields the empty list, not an
error. -/
theorem list_models_http (emb chat url : String) (o : ProcOutput) :
    list_models ⟨.ollama, emb, chat, url⟩ (some o)
      = .ok (if o.success then specModelParse o.stdout else []) := by
  cases hs : o.success
  · simp [list_models, hs]
  · simp [list_models, hs, specModelParse, filterMap_firstToken]

/-- Membership in `insertMood`: an element of the updated map is the
inserted pair or an element of the original map. -/
theorem mem_insertMood {kv : String × ℚ} {m : List (String × ℚ)} {k : String}
    {v : ℚ} (h : kv ∈ insertMood m k v) : kv = (k, v) ∨ kv ∈ m := by
  unfold insertMood at h
  split at h
  · obtain ⟨p, hp, hpe⟩ := List.mem_map.mp h
    split at hpe
    · exact Or.inl hpe.symm
    · exact Or.inr (hpe ▸ hp)
  · rcases List.mem_append.mp h with h1 | h2
    · exact Or.inr h1
    · exact Or.inl (List.mem_singleton.mp h2)

/-- Values surviving a left fold of `insertMood` satisfy a predicate when
the initial values and every inserted value do. -/
theorem foldl_insertMood_bound (g : String × ℚ → ℚ) (P : ℚ → Prop)
    (inserts : List (String × ℚ)) :
    ∀ init : List (String × ℚ),
      (∀ kv ∈ init, P kv.2) → (∀ kv ∈ inserts, P (g kv)) →
      ∀ kv ∈ inserts.foldl (fun m kv => insertMood m kv.1 (g kv)) init, P kv.2 := by
  induction inserts with
  | nil =>
    intro init hinit _ kv hkv
    exact hinit kv hkv
  | cons hd tl ih =>
    intro init hinit hins kv hkv
    simp only [List.foldl_cons] at hkv
    refine ih (insertMood init hd.1 (g hd)) ?_ ?_ kv hkv
    · intro kv' hkv'
      rcases mem_insertMood hkv' with h | h
      · rw [h]
        exact hins hd (List.mem_cons_self hd tl)
      · exact hinit kv' h
    · intro kv' hkv'
      exact hins kv' (List.mem_cons_of_mem hd hkv')

/-- Claim C1, counterexample: with one entry and a successful chat reply
reporting "positive: 150", the analyzer stores the mood value 1.5 — outside
[0, 1] — because parsed percentages are divided by 100 but never clamped. -/
theorem mood_out_of_range_cex :
    ¬ ∀ kv ∈ (analyze_echo_patterns svcOllama (fun _ => "id")
        (.ok ⟨"MOODS:\n- positive: 150", "llama3.2", none⟩) ["entry"]).mood_trends,
      0 ≤ kv.2 ∧ kv.2 ≤ 1 := by decide

/-- Claim C1, amended: every pattern strength lies in [0, 1] unconditionally
(patterns carry the literal strengths 0.8 or 0.7); the mood_trends values
are the parsed raw percentages divided by 100 and lie in [0, 1] whenever
every raw value parsed from the chat reply lies in [0, 100] — the code does
not clamp, so replies outside that range escape the interval.  The fixed
error-fallback mood values 0.5, 0.3, 0.2 are always in range. -/
theorem analyze_bounds (svc : AIService) (genId : Nat → String)
    (chatResult : Except String ChatResponse) (entry_contents : List String) :
    (∀ p ∈ (analyze_echo_patterns svc genId chatResult entry_contents).patterns,
      0 ≤ p.strength ∧ p.strength ≤ 1) ∧
    ((∀ response, chatResult = .ok response →
        ∀ kv ∈ rawMoods response.response, 0 ≤ kv.2 ∧ kv.2 ≤ 100) →
      ∀ kv ∈ (analyze_echo_patterns svc genId chatResult entry_contents).mood_trends,
        0 ≤ kv.2 ∧ kv.2 ≤ 1) := by
  constructor
  · intro p hp
    cases entry_contents with
    | nil =>
      simp [analyze_echo_patterns] at hp
    | cons a l =>
      cases chatResult with
      | error e =>
        have hp0 : (analyze_echo_patterns svc genId (.error e) (a :: l)).patterns
            = [] := rfl
        rw [hp0] at hp
        simp at hp
      | ok response =>
        have hp0 : (analyze_echo_patterns svc genId (.ok response) (a :: l)).patterns
            = if ((patternPairs response.response).enum.map (fun q =>
                  ({ id := genId q.1, title := q.2.1, description := q.2.2,
                     strength := 0.8, entry_ids := [], tags := [],
                     pattern_type := "custom" } : EchoPattern))).isEmpty
                && decide (3 < (a :: l).length) then
                [{ id := genId 0, title := "Regular Journaling",
                   description := "You maintain a consistent journaling habit",
                   strength := 0.7, entry_ids := [], tags := ["consistency"],
                   pattern_type := "habit" }]
              else (patternPairs response.response).enum.map fun q =>
                { id := genId q.1, title := q.2.1, description := q.2.2,
                  strength := 0.8, entry_ids := [], tags := [],
                  pattern_type := "custom" } := rfl
        rw [hp0] at hp
        split at hp
        · rw [List.mem_singleton.mp hp]
          norm_num
        · obtain ⟨x, hmem, rfl⟩ := List.mem_map.mp hp
          norm_num
  · intro hraw kv hkv
    cases entry_contents with
    | nil =>
      simp [analyze_echo_patterns] at hkv
    | cons a l =>
      cases chatResult with
      | error e =>
        have hm0 : (analyze_echo_patterns svc genId (.error e) (a :: l)).mood_trends
            = [("neutral", 0.5), ("positive", 0.3), ("negative", 0.2)] := rfl
        rw [hm0] at hkv
        simp only [List.mem_cons, List.not_mem_nil, or_false] at hkv
        rcases hkv with rfl | rfl | rfl <;> norm_num
      | ok response =>
        have hmt : (analyze_echo_patterns svc genId (.ok response) (a :: l)).mood_trends
            = (rawMoods response.response).foldl
                (fun m kv => insertMood m kv.1 (kv.2 / 100)) [] := rfl
        rw [hmt] at hkv
        have hins : ∀ kv' ∈ rawMoods response.response,
            0 ≤ kv'.2 / 100 ∧ kv'.2 / 100 ≤ 1 := by
          intro kv' hkv'
          obtain ⟨h0, h100⟩ := hraw response rfl kv' hkv'
          constructor
          · exact div_nonneg h0 (by norm_num)
          · rw [div_le_one (by norm_num : (0 : ℚ) < 100)]
            linarith
        exact foldl_insertMood_bound (fun kv => kv.2 / 100)
          (fun v => 0 ≤ v ∧ v ≤ 1) (rawMoods response.response) []
          (by intro kv' hkv'; simp at hkv') hins kv hkv

/-- Witness for `analyze_bounds`: a reply reporting "positive: 70" gives the
in-range mood value 0.7 and no out-of-range strength; the raws-in-[0,100]
hypothesis of the mood conjunct is discharged by evaluation. -/
theorem analyze_bounds_witness :
    (∀ p ∈ (analyze_echo_patterns svcOllama (fun _ => "id")
        (.ok ⟨"MOODS:\n- positive: 70", "llama3.2", none⟩) ["entry"]).patterns,
      0 ≤ p.strength ∧ p.strength ≤ 1) ∧
    ∀ kv ∈ (analyze_echo_patterns svcOllama (fun _ => "id")
        (.ok ⟨"MOODS:\n- positive: 70", "llama3.2", none⟩) ["entry"]).mood_trends,
      0 ≤ kv.2 ∧ kv.2 ≤ 1 :=
  ⟨(analyze_bounds svcOllama (fun _ => "id")
      (.ok ⟨"MOODS:\n- positive: 70", "llama3.2", none⟩) ["entry"]).1,
   (analyze_bounds svcOllama (fun _ => "id")
      (.ok ⟨"MOODS:\n- positive: 70", "llama3.2", none⟩) ["entry"]).2
     (by intro r h; cases h; decide)⟩


